import Mathlib

/-
Verification of the RCM medical-record pipeline and its frontend.

The repository ships the React frontend (App.jsx, Login, CodeLookup) and
two README documents describing the document-processing pipeline
(extraction, entity recognition, standardization, consistency validation).
The pipeline implementation itself (data_collector.py and its agents) is
not part of the shipped sources, so the pipeline definitions below are
modelled from the specification text; the frontend definitions are
translated directly from the JSX sources.

Confidence scores are represented as natural-number percentages
(100 = 1.0, 75 = 0.75), and strings are processed over their character
lists so that every definition evaluates by kernel reduction.
-/

namespace RCM

/-- Lower-cases the characters of a string and splits it into maximal
whitespace-free words, accumulating the current word in reverse. -/
def lowerWordsAux : List Char → List Char → List (List Char)
  | [], acc => if acc.isEmpty then [] else [acc.reverse]
  | c :: cs, acc =>
    if c.isWhitespace then
      if acc.isEmpty then lowerWordsAux cs [] else acc.reverse :: lowerWordsAux cs []
    else lowerWordsAux cs (c.toLower :: acc)

/-- Modelled from the spec: the normalization applied before terminology
lookup (case-fold, whitespace-collapse).  The normal form of a string is
its list of lower-cased words; two strings normalize equal exactly when
their case-folded, whitespace-collapsed texts coincide. -/
def normWords (s : String) : List String :=
  (lowerWordsAux s.data []).map (fun w => String.mk w)

/-- Whether the text of s begins with the text of p. -/
def startsWithChars (s : String) (p : String) : Bool :=
  p.data.isPrefixOf s.data

/-- Whether the text of p occurs anywhere inside the text of s. -/
def containsSub (s : String) (p : String) : Bool :=
  (s.data.tails).any (fun t => p.data.isPrefixOf t)

/-- Whether the string consists of whitespace only. -/
def isBlank (s : String) : Bool := s.data.all (fun c => c.isWhitespace)

/-- Modelled from the spec: token-overlap similarity used by the fuzzy
matching tier, as a percentage (size of the token intersection over the
size of the token union). -/
def similarityPct (a b : List String) : Nat :=
  let ta := a.dedup
  let tb := b.dedup
  let inter := ta.filter (fun t => tb.contains t)
  let uni := ta ++ tb.filter (fun t => !ta.contains t)
  if uni.isEmpty then 0 else 100 * inter.length / uni.length

/-- The terminology code systems of the data model. -/
inductive CodeSystem
  | icd10
  | cpt
  | hcpcs
deriving DecidableEq

/-- The match methods a StandardizedCode can carry. -/
inductive MatchMethod
  | exact
  | abbreviation
  | synonym
  | fuzzy
deriving DecidableEq

/-- Modelled from the spec: a candidate or chosen mapping to a terminology
code, with its match confidence (as a percentage) and match method. -/
structure StandardizedCode where
  system : CodeSystem
  code : String
  description : String
  confidencePct : Nat
  method : MatchMethod
deriving DecidableEq

/-- One row of the terminology table: a canonical term and its code. -/
structure TermEntry where
  term : String
  system : CodeSystem
  code : String
  description : String
deriving DecidableEq

/-- Modelled from the spec: the read-only terminology configuration
(canonical terms, clinical abbreviations, registered synonyms) supplied
to the Standardization Engine at construction. -/
structure TerminologyTables where
  terms : List TermEntry
  abbreviations : List (String × String)
  synonyms : List (String × String)

/-- The fixed entity-type taxonomy. -/
inductive EntityType
  | diagnosis
  | medication
  | procedure
  | vital
  | labValue
deriving DecidableEq

/-- A clinical mention found by NLP: surface text, character span and
extraction confidence (as a percentage). -/
structure Entity where
  surface : String
  etype : EntityType
  startPos : Nat
  endPos : Nat
  confidencePct : Nat
deriving DecidableEq

/-- An entity together with its candidate codes and the selected one. -/
structure ProcessedEntity where
  entity : Entity
  candidates : List StandardizedCode
  selected : Option StandardizedCode
deriving DecidableEq

/-- Severity levels of a ValidationIssue. -/
inductive Severity
  | info
  | warning
  | error
deriving DecidableEq

/-- A detected inconsistency: severity, the two conflicting data points
(by identifier) and a human-readable description. -/
structure ValidationIssue where
  severity : Severity
  firstId : String
  secondId : String
  description : String
deriving DecidableEq

/-- A structured field of a RawExtraction, possibly carrying an embedded
terminology code (for example an HL7 diagnosis segment). -/
structure StructuredField where
  key : String
  value : String
  location : String
  embeddedCode : Option (CodeSystem × String)
deriving DecidableEq

/-- A free-text segment of a RawExtraction. -/
structure Segment where
  text : String
  role : String
deriving DecidableEq

/-- The per-document output of a Format Extractor. -/
structure RawExtraction where
  fields : List StructuredField
  segments : List Segment
deriving DecidableEq

/-- The closed set of recognized document formats. -/
inductive FormatTag
  | hl7
  | fhir
  | pdf
  | text
deriving DecidableEq

/-- The fatal per-document failures of the pipeline front end. -/
inductive PipelineError
  | unrecognizedFormat
  | extractionError
deriving DecidableEq

/-- Overall status of a MedicalRecord. -/
inductive Status
  | complete
  | partialResult
  | failed
deriving DecidableEq

/-- An immutable input document. -/
structure Document where
  id : String
  content : String
deriving DecidableEq

/-- The pipeline terminal artifact handed to persistence. -/
structure MedicalRecord where
  docId : String
  extraction : RawExtraction
  entities : List ProcessedEntity
  issues : List ValidationIssue
  status : Status
  failureReason : Option String
deriving DecidableEq

/-- The intermediate state the Consistency Validator runs on. -/
structure RecordInProgress where
  docId : String
  formatTag : FormatTag
  extraction : RawExtraction
  entities : List ProcessedEntity
  issues : List ValidationIssue
deriving DecidableEq

/-- Modelled from the spec: the capabilities injected into the pipeline
(format extractors, the entity-recognition capability, the terminology
tables and the acceptance threshold). -/
structure Env where
  extract : FormatTag → Document → RawExtraction
  recognize : Segment → List Entity
  tables : TerminologyTables
  threshold : Nat

/-- Modelled from the spec: tier 1, exact lookup.  The normalized surface
text matches a canonical term verbatim; confidence 1.0, method exact. -/
def exactLookup (tbl : TerminologyTables) (s : String) : List StandardizedCode :=
  (tbl.terms.filter (fun e => normWords e.term == normWords s)).map (fun e =>
    { system := e.system, code := e.code, description := e.description,
      confidencePct := 100, method := MatchMethod.exact })

/-- The expansion registered for the surface text in the abbreviation
table, when there is one. -/
def abbrevExpansion (tbl : TerminologyTables) (s : String) : Option String :=
  (tbl.abbreviations.find? (fun p => normWords p.1 == normWords s)).map (fun p => p.2)

/-- Modelled from the spec: tier 2, abbreviation expansion.  A known
clinical abbreviation is expanded and the exact lookup is retried at
confidence 0.9, method abbreviation-expansion. -/
def abbrevCandidates (tbl : TerminologyTables) (s : String) : List StandardizedCode :=
  match abbrevExpansion tbl s with
  | none => []
  | some expansion =>
      (tbl.terms.filter (fun e => normWords e.term == normWords expansion)).map (fun e =>
        { system := e.system, code := e.code, description := e.description,
          confidencePct := 90, method := MatchMethod.abbreviation })

/-- Modelled from the spec: tier 3, synonym lookup.  The surface text
matches a registered synonym of a canonical term; confidence 0.85. -/
def synonymCandidates (tbl : TerminologyTables) (s : String) : List StandardizedCode :=
  (tbl.synonyms.filter (fun p => normWords p.1 == normWords s)).flatMap (fun p =>
    (tbl.terms.filter (fun e => normWords e.term == normWords p.2)).map (fun e =>
      { system := e.system, code := e.code, description := e.description,
        confidencePct := 85, method := MatchMethod.synonym }))

/-- The minimum similarity floor of the fuzzy tier (0.6). -/
def fuzzyFloorPct : Nat := 60

/-- Modelled from the spec: tier 4, fuzzy match.  Token-overlap similarity
against canonical terms; confidence is the similarity score and only
candidates at or above the floor are returned. -/
def fuzzyCandidates (tbl : TerminologyTables) (s : String) : List StandardizedCode :=
  tbl.terms.filterMap (fun e =>
    let sim := similarityPct (normWords s) (normWords e.term)
    if fuzzyFloorPct ≤ sim then
      some { system := e.system, code := e.code, description := e.description,
             confidencePct := sim, method := MatchMethod.fuzzy }
    else none)

/-- The candidate order of the spec: confidence descending, ties broken by
shorter canonical description (prefer specific over generic). -/
def candBefore (a b : StandardizedCode) : Prop :=
  b.confidencePct < a.confidencePct ∨
    (a.confidencePct = b.confidencePct ∧ a.description.length ≤ b.description.length)

instance : DecidableRel candBefore :=
  fun a b =>
    inferInstanceAs (Decidable (b.confidencePct < a.confidencePct ∨
      (a.confidencePct = b.confidencePct ∧ a.description.length ≤ b.description.length)))

/-- Sorts a candidate list best-first in the candBefore order. -/
def sortCandidates (l : List StandardizedCode) : List StandardizedCode :=
  List.insertionSort candBefore l

/-- Modelled from the spec: the four matching tiers applied in priority
order, stopping at the first tier that yields a match. -/
def tierCandidates (tbl : TerminologyTables) (s : String) : List StandardizedCode :=
  if exactLookup tbl s = [] then
    if abbrevCandidates tbl s = [] then
      if synonymCandidates tbl s = [] then fuzzyCandidates tbl s
      else synonymCandidates tbl s
    else abbrevCandidates tbl s
  else exactLookup tbl s

/-- Modelled from the spec: the Standardization Engine, missing from the
shipped sources.  Returns the ordered candidate sequence, best first. -/
def standardize (tbl : TerminologyTables) (s : String) : List StandardizedCode :=
  sortCandidates (tierCandidates tbl s)

/-- The default acceptance threshold (0.75). -/
def defaultAcceptancePct : Nat := 75

/-- Modelled from the spec: a candidate becomes selected only if its
confidence clears the acceptance threshold; on the best-first candidate
list this is the first candidate that clears it. -/
def selectCode (t : Nat) (candidates : List StandardizedCode) : Option StandardizedCode :=
  candidates.find? (fun c => decide (t ≤ c.confidencePct))

/-- Standardizes one entity: its candidate list and its selected code. -/
def processEntity (tbl : TerminologyTables) (t : Nat) (e : Entity) : ProcessedEntity :=
  { entity := e, candidates := standardize tbl e.surface,
    selected := selectCode t (standardize tbl e.surface) }

/-- The number of entities of a batch of candidate sets that end up with a
selected code under threshold t. -/
def selectedCount (t : Nat) (batches : List (List StandardizedCode)) : Nat :=
  batches.countP (fun cs => (selectCode t cs).isSome)

/-- Whether two descriptions share a normalized token. -/
def descriptionsOverlap (a b : String) : Bool :=
  (normWords a).any (fun w => (normWords b).contains w)

/-- Modelled from the spec: the cross-source disagreement check.  A
structured field that carries an embedded code and an NLP-derived selected
code of the same system with overlapping descriptions but a different code
value raise an issue; warning when both confidences are at least 0.8,
info otherwise. -/
def crossSourceIssues (fields : List StructuredField) (pes : List ProcessedEntity) :
    List ValidationIssue :=
  fields.flatMap (fun f =>
    match f.embeddedCode with
    | none => []
    | some (sys, code) =>
        pes.filterMap (fun p =>
          match p.selected with
          | none => none
          | some c =>
              if c.system = sys ∧ ¬c.code = code ∧ descriptionsOverlap f.value c.description then
                some { severity :=
                         if 80 ≤ c.confidencePct ∧ 80 ≤ p.entity.confidencePct then
                           Severity.warning
                         else Severity.info,
                       firstId := f.key, secondId := p.entity.surface,
                       description := "cross-source code disagreement" }
              else none))

/-- Modelled from the spec: the duplicate-submission check.  Two entities
of the same document mapping to the identical selected code raise a
warning. -/
def duplicateIssues (pes : List ProcessedEntity) : List ValidationIssue :=
  pes.enum.flatMap (fun ip =>
    pes.enum.filterMap (fun jq =>
      if ip.1 < jq.1 then
        match ip.2.selected, jq.2.selected with
        | some c, some d =>
            if c.system = d.system ∧ c.code = d.code then
              some { severity := Severity.warning, firstId := ip.2.entity.surface,
                     secondId := jq.2.entity.surface,
                     description := "duplicate selected code" }
            else none
        | _, _ => none
      else none))

/-- The structured-field keys each format is expected to supply. -/
def requiredKeys (tag : FormatTag) : List String :=
  match tag with
  | FormatTag.hl7 => ["diagnosis"]
  | FormatTag.fhir => ["patient"]
  | FormatTag.pdf => []
  | FormatTag.text => []

/-- Modelled from the spec: the missing-required-field check; an absent
expected field raises an error-severity issue. -/
def missingFieldIssues (tag : FormatTag) (ext : RawExtraction) : List ValidationIssue :=
  (requiredKeys tag).filterMap (fun k =>
    if ext.fields.any (fun f => f.key == k) then none
    else some { severity := Severity.error, firstId := k, secondId := "",
                description := "missing required field" })

/-- Modelled from the spec: the low-confidence terminal-state check; an
entity below 0.5 extraction confidence with no selected code raises an
info issue. -/
def lowConfidenceIssues (pes : List ProcessedEntity) : List ValidationIssue :=
  pes.filterMap (fun p =>
    if p.entity.confidencePct < 50 ∧ p.selected = none then
      some { severity := Severity.info, firstId := p.entity.surface, secondId := "",
             description := "low-confidence entity without selected code" }
    else none)

/-- Modelled from the spec: the Consistency Validator, missing from the
shipped sources.  All four checks run independently; the result depends
only on the record data, never on previously recorded issues. -/
def validate (r : RecordInProgress) : List ValidationIssue :=
  crossSourceIssues r.extraction.fields r.entities ++
    duplicateIssues r.entities ++
    missingFieldIssues r.formatTag r.extraction ++
    lowConfidenceIssues r.entities

/-- One validator pass over an intermediate state: the produced issues are
appended and nothing else changes. -/
def applyValidator (r : RecordInProgress) : RecordInProgress :=
  { r with issues := r.issues ++ validate r }

/-- Modelled from the spec: the Document Router.  Inspects the content
signature (HL7 segment delimiters, FHIR resource envelope markers, PDF
magic bytes, else plain text) and fails with UnrecognizedFormat when no
extractor claims the input. -/
def classify (doc : Document) : Except PipelineError FormatTag :=
  if startsWithChars doc.content "MSH|" then Except.ok FormatTag.hl7
  else if containsSub doc.content "resourceType" then Except.ok FormatTag.fhir
  else if startsWithChars doc.content "%PDF" then Except.ok FormatTag.pdf
  else if isBlank doc.content then Except.error PipelineError.unrecognizedFormat
  else Except.ok FormatTag.text

/-- Whether some entity or field is missing or below threshold: an
error-severity issue was recorded, an entity carries no selected code, or
an entity sits below the extraction-confidence threshold. -/
def hasDegradation (t : Nat) (pes : List ProcessedEntity) (issues : List ValidationIssue) : Bool :=
  issues.any (fun i => decide (i.severity = Severity.error)) ||
    pes.any (fun p => p.selected.isNone) ||
    pes.any (fun p => decide (p.entity.confidencePct < t))

/-- Modelled from the spec: the overall-status computation of the Result
Assembler.  FAILED when nothing was extracted, PARTIAL when some entity or
field is missing or below threshold, COMPLETE otherwise. -/
def computeStatus (t : Nat) (ext : RawExtraction) (pes : List ProcessedEntity)
    (issues : List ValidationIssue) : Status :=
  if ext.fields = [] ∧ ext.segments = [] then Status.failed
  else if hasDegradation t pes issues then Status.partialResult
  else Status.complete

/-- The record emitted when a fatal per-document failure short-circuits the
pipeline: no extraction, no entities, no issues, status FAILED. -/
def failedRecord (doc : Document) (reason : String) : MedicalRecord :=
  { docId := doc.id, extraction := { fields := [], segments := [] }, entities := [],
    issues := [], status := Status.failed, failureReason := some reason }

/-- The entities the pipeline derives from the free-text segments of an
extraction, standardized against the configured tables. -/
def assembledEntities (env : Env) (doc : Document) (tag : FormatTag) : List ProcessedEntity :=
  ((env.extract tag doc).segments.flatMap env.recognize).map
    (processEntity env.tables env.threshold)

/-- The validator output for the assembled intermediate state. -/
def assembledIssues (env : Env) (doc : Document) (tag : FormatTag) : List ValidationIssue :=
  validate { docId := doc.id, formatTag := tag, extraction := env.extract tag doc,
             entities := assembledEntities env doc tag, issues := [] }

/-- Modelled from the spec: the Result Assembler and Orchestrator, missing
from the shipped sources.  Classification failure and an empty extraction
are fatal (the record is emitted immediately with status FAILED and no
further stage runs); otherwise the stages run in sequence and the overall
status is computed from their outputs. -/
def runPipeline (env : Env) (doc : Document) : MedicalRecord :=
  match classify doc with
  | Except.error _ => failedRecord doc "UnrecognizedFormat"
  | Except.ok tag =>
      if (env.extract tag doc).fields = [] ∧ (env.extract tag doc).segments = [] then
        failedRecord doc "ExtractionError"
      else
        { docId := doc.id, extraction := env.extract tag doc,
          entities := assembledEntities env doc tag,
          issues := assembledIssues env doc tag,
          status := computeStatus env.threshold (env.extract tag doc)
                      (assembledEntities env doc tag) (assembledIssues env doc tag),
          failureReason := none }

/-- Translated from App.jsx: the stored value under a localStorage key. -/
def getItem (store : List (String × String)) (key : String) : Option String :=
  (store.find? (fun p => p.1 == key)).map (fun p => p.2)

/-- What a render of ProtectedRoute produces. -/
inductive RouteOutcome
  | renderChildren
  | redirectToLogin
deriving DecidableEq

/-- Translated from ProtectedRoute in src/RCM_frontend/src/App.jsx: the
children render exactly when the stored isAuthenticated value is the
string true; otherwise the component renders a Navigate to /login. -/
def protectedRoute (store : List (String × String)) : RouteOutcome :=
  if getItem store "isAuthenticated" = some "true" then RouteOutcome.renderChildren
  else RouteOutcome.redirectToLogin

/-- The observable effects of one submission of the Login form. -/
structure SubmitOutcome where
  storedItems : List (String × String)
  navigatedTo : Option String
  alertMessage : Option String
deriving DecidableEq

/-- Translated from handleSubmit in the Login component: admin/admin sets
isAuthenticated and navigates to /dashboard, anything else only shows an
alert. -/
def handleSubmit (username password : String) : SubmitOutcome :=
  if username = "admin" ∧ password = "admin" then
    { storedItems := [("isAuthenticated", "true")], navigatedTo := some "/dashboard",
      alertMessage := none }
  else
    { storedItems := [], navigatedTo := none, alertMessage := some "Invalid credentials" }

/-- One row of the CodeLookup result table. -/
structure CodeRow where
  code : String
  description : String
  category : String
deriving DecidableEq

/-- Translated from the static sampleData.searchResults table of the
CodeLookup component. -/
def sampleSearchResults : List (String × List CodeRow) :=
  [("ICD-10",
    [{ code := "I10", description := "Essential (primary) hypertension",
       category := "Diseases of the circulatory system" },
     { code := "E11.9", description := "Type 2 diabetes mellitus without complications",
       category := "Endocrine, nutritional and metabolic diseases" },
     { code := "J45.909", description := "Unspecified asthma, uncomplicated",
       category := "Diseases of the respiratory system" },
     { code := "M54.5", description := "Low back pain",
       category := "Diseases of the musculoskeletal system and connective tissue" }]),
   ("CPT",
    [{ code := "99213",
       description := "Office or other outpatient visit for the evaluation and management of an established patient",
       category := "Evaluation and Management" },
     { code := "99214",
       description := "Office or other outpatient visit for the evaluation and management of an established patient (moderate complexity)",
       category := "Evaluation and Management" },
     { code := "36415", description := "Collection of venous blood by venipuncture",
       category := "Laboratory" },
     { code := "71045", description := "Radiologic examination, chest; single view",
       category := "Radiology" }]),
   ("HCPCS",
    [{ code := "G0008", description := "Administration of influenza virus vaccine",
       category := "Procedures/Professional Services" },
     { code := "J0131", description := "Injection, acetaminophen, 10 mg",
       category := "Drugs" },
     { code := "A4253",
       description := "Blood glucose test or reagent strips for home blood glucose monitor, per 50 strips",
       category := "Medical Equipment" },
     { code := "E0601",
       description := "Continuous positive airway pressure (CPAP) device",
       category := "Durable Medical Equipment" }])]

/-- The rows the static table holds for a code system. -/
def lookupResults (codeType : String) : List CodeRow :=
  ((sampleSearchResults.find? (fun p => p.1 == codeType)).map (fun p => p.2)).getD []

/-- The component state handleSearch operates on. -/
structure CodeLookupState where
  searchTerm : String
  codeType : String
  searchResults : List CodeRow
deriving DecidableEq

/-- Translated from handleSearch in the CodeLookup component: the results
are replaced by the static table rows of the selected code system; the
typed search term does not flow into the result. -/
def handleSearch (st : CodeLookupState) : CodeLookupState :=
  { st with searchResults := lookupResults st.codeType }

/-- A small terminology configuration, used to exercise the theorems on
concrete inputs (entries follow the concrete scenarios of the spec). -/
def demoTables : TerminologyTables :=
  { terms :=
      [{ term := "hypertension", system := CodeSystem.icd10, code := "I10",
         description := "Essential (primary) hypertension" },
       { term := "type 2 diabetes mellitus", system := CodeSystem.icd10, code := "E11.9",
         description := "Type 2 diabetes mellitus without complications" }],
    abbreviations := [("HTN", "hypertension"), ("DM2", "type 2 diabetes mellitus")],
    synonyms := [("high blood pressure", "hypertension")] }

/-- A concrete NLP entity mentioning the abbreviation HTN. -/
def demoEntity : Entity :=
  { surface := "HTN", etype := EntityType.diagnosis, startPos := 0, endPos := 3,
    confidencePct := 100 }

/-- The code the abbreviation tier produces for HTN over demoTables. -/
def htnCode : StandardizedCode :=
  { system := CodeSystem.icd10, code := "I10",
    description := "Essential (primary) hypertension", confidencePct := 90,
    method := MatchMethod.abbreviation }

/-- A concrete capability environment over demoTables. -/
def demoEnv : Env :=
  { extract := fun _ _ =>
      { fields := [{ key := "diagnosis", value := "I10", location := "DG1-3-1",
                     embeddedCode := some (CodeSystem.icd10, "I10") }],
        segments := [{ text := "patient has hypertension", role := "note" }] },
    recognize := fun _ =>
      [{ surface := "hypertension", etype := EntityType.diagnosis, startPos := 12,
         endPos := 24, confidencePct := 90 }],
    tables := demoTables,
    threshold := defaultAcceptancePct }

/-- A concrete HL7 document (content signature MSH). -/
def hl7Doc : Document := { id := "doc1", content := "MSH|^~\\&|SYS" }

/-- A concrete whitespace-only document no extractor claims. -/
def blankDoc : Document := { id := "doc0", content := "   " }

/-- Concrete candidate batches for the threshold-monotonicity witness. -/
def demoBatches : List (List StandardizedCode) :=
  [[htnCode],
   [{ system := CodeSystem.icd10, code := "E11.9",
      description := "Type 2 diabetes mellitus without complications",
      confidencePct := 80, method := MatchMethod.synonym }]]

/-- A concrete intermediate record for the validator witness. -/
def demoRecord : RecordInProgress :=
  { docId := "doc1", formatTag := FormatTag.hl7,
    extraction :=
      { fields := [{ key := "diagnosis", value := "I10", location := "DG1-3-1",
                     embeddedCode := some (CodeSystem.icd10, "I10") }],
        segments := [{ text := "patient has hypertension", role := "note" }] },
    entities := [processEntity demoTables defaultAcceptancePct demoEntity],
    issues := [] }

/-- Two concrete CodeLookup states differing only in the search term. -/
def demoLookupStateA : CodeLookupState :=
  { searchTerm := "hyper", codeType := "ICD-10", searchResults := [] }

/-- Second concrete CodeLookup state, same code system, other term. -/
def demoLookupStateB : CodeLookupState :=
  { searchTerm := "diabetes", codeType := "ICD-10", searchResults := [] }

end RCM

namespace RCM

theorem candBefore_total : ∀ a b : StandardizedCode, candBefore a b ∨ candBefore b a := by
  intro a b
  unfold candBefore
  omega

theorem candBefore_trans :
    ∀ a b c : StandardizedCode, candBefore a b → candBefore b c → candBefore a c := by
  intro a b c hab hbc
  unfold candBefore at hab hbc ⊢
  omega

theorem standardize_sorted (tbl : TerminologyTables) (s : String) :
    List.Pairwise candBefore (standardize tbl s) :=
  @List.sorted_insertionSort _ candBefore _ ⟨candBefore_total⟩ ⟨candBefore_trans⟩
    (tierCandidates tbl s)

theorem mem_standardize_iff (tbl : TerminologyTables) (s : String) (c : StandardizedCode) :
    c ∈ standardize tbl s ↔ c ∈ tierCandidates tbl s :=
  List.mem_insertionSort candBefore

theorem sortCandidates_eq_nil_iff (l : List StandardizedCode) :
    sortCandidates l = [] ↔ l = [] := by
  constructor
  · intro h
    have hp := List.perm_insertionSort candBefore l
    rw [show List.insertionSort candBefore l = sortCandidates l from rfl, h] at hp
    exact hp.symm.eq_nil
  · intro h
    rw [h]
    rfl

theorem mem_exactLookup (tbl : TerminologyTables) (s : String) (c : StandardizedCode)
    (hc : c ∈ exactLookup tbl s) :
    c.confidencePct = 100 ∧ c.method = MatchMethod.exact := by
  unfold exactLookup at hc
  rw [List.mem_map] at hc
  obtain ⟨e, _, rfl⟩ := hc
  exact ⟨rfl, rfl⟩

theorem find_first_cleared_max (t : Nat) :
    ∀ (l : List StandardizedCode) (c : StandardizedCode),
      List.Pairwise candBefore l →
      List.find? (fun x => decide (t ≤ x.confidencePct)) l = some c →
      t ≤ c.confidencePct ∧ c ∈ l ∧
        ∀ c' ∈ l, t ≤ c'.confidencePct → c'.confidencePct ≤ c.confidencePct := by
  intro l
  induction l with
  | nil =>
      intro c _ hf
      simp at hf
  | cons x xs ih =>
      intro c hp hf
      by_cases hx : t ≤ x.confidencePct
      · rw [List.find?_cons_of_pos _ (by simpa using hx)] at hf
        obtain rfl : x = c := by injection hf
        refine ⟨hx, List.mem_cons_self x xs, ?_⟩
        intro c' hc' _
        rcases List.mem_cons.mp hc' with rfl | hmem
        · exact Nat.le_refl _
        · have hcb := (List.pairwise_cons.mp hp).1 c' hmem
          unfold candBefore at hcb
          omega
      · rw [List.find?_cons_of_neg _ (by simpa using hx)] at hf
        obtain ⟨h1, h2, h3⟩ := ih c (List.Pairwise.of_cons hp) hf
        refine ⟨h1, List.mem_cons_of_mem _ h2, ?_⟩
        intro c' hc' hcl
        rcases List.mem_cons.mp hc' with rfl | hmem
        · exact absurd hcl hx
        · exact h3 c' hmem hcl

/-- C1: a candidate is selected only if its confidence clears the
acceptance threshold, a selected code is the highest-scoring candidate
that cleared it, and when no candidate clears the threshold the entity
keeps its candidate list and gets no selected code. -/
theorem selected_code_policy (tbl : TerminologyTables) (t : Nat) (e : Entity) :
    (∀ c, (processEntity tbl t e).selected = some c →
        t ≤ c.confidencePct ∧ c ∈ (processEntity tbl t e).candidates ∧
        ∀ c' ∈ (processEntity tbl t e).candidates,
          t ≤ c'.confidencePct → c'.confidencePct ≤ c.confidencePct) ∧
    ((∀ c' ∈ (processEntity tbl t e).candidates, c'.confidencePct < t) →
        (processEntity tbl t e).selected = none) ∧
    (processEntity tbl t e).candidates = standardize tbl e.surface := by
  refine ⟨?_, ?_, rfl⟩
  · intro c hc
    exact find_first_cleared_max t (standardize tbl e.surface) c
      (standardize_sorted tbl e.surface) hc
  · intro hall
    show List.find? (fun x => decide (t ≤ x.confidencePct)) (standardize tbl e.surface) = none
    rw [List.find?_eq_none]
    intro x hx
    simpa using Nat.not_le.mpr (hall x hx)

theorem selected_code_policy_witness :
    defaultAcceptancePct ≤ htnCode.confidencePct ∧
      htnCode ∈ (processEntity demoTables defaultAcceptancePct demoEntity).candidates := by
  have h :=
    (selected_code_policy demoTables defaultAcceptancePct demoEntity).1 htnCode (by decide)
  exact ⟨h.1, h.2.1⟩

/-- C2: the four matching tiers are applied in priority order and matching
stops at the first tier with a match; when the normalized surface text
matches a canonical term verbatim every returned candidate comes from the
exact tier with confidence 1.0 and method exact. -/
theorem standardize_tier_priority (tbl : TerminologyTables) (s : String) :
    (exactLookup tbl s ≠ [] →
        standardize tbl s ≠ [] ∧
        ∀ c ∈ standardize tbl s,
          c ∈ exactLookup tbl s ∧ c.confidencePct = 100 ∧ c.method = MatchMethod.exact) ∧
    (exactLookup tbl s = [] → abbrevCandidates tbl s ≠ [] →
        ∀ c ∈ standardize tbl s, c ∈ abbrevCandidates tbl s) ∧
    (exactLookup tbl s = [] → abbrevCandidates tbl s = [] → synonymCandidates tbl s ≠ [] →
        ∀ c ∈ standardize tbl s, c ∈ synonymCandidates tbl s) ∧
    (exactLookup tbl s = [] → abbrevCandidates tbl s = [] → synonymCandidates tbl s = [] →
        ∀ c ∈ standardize tbl s, c ∈ fuzzyCandidates tbl s) := by
  refine ⟨?_, ?_, ?_, ?_⟩
  · intro hne
    have htier : tierCandidates tbl s = exactLookup tbl s := by
      unfold tierCandidates
      rw [if_neg hne]
    constructor
    · intro h0
      exact hne (htier ▸ (sortCandidates_eq_nil_iff (tierCandidates tbl s)).mp h0)
    · intro c hc
      have hct : c ∈ exactLookup tbl s := htier ▸ (mem_standardize_iff tbl s c).mp hc
      exact ⟨hct, mem_exactLookup tbl s c hct⟩
  · intro hex hab
    have htier : tierCandidates tbl s = abbrevCandidates tbl s := by
      unfold tierCandidates
      rw [if_pos hex, if_neg hab]
    intro c hc
    exact htier ▸ (mem_standardize_iff tbl s c).mp hc
  · intro hex hab hsy
    have htier : tierCandidates tbl s = synonymCandidates tbl s := by
      unfold tierCandidates
      rw [if_pos hex, if_pos hab, if_neg hsy]
    intro c hc
    exact htier ▸ (mem_standardize_iff tbl s c).mp hc
  · intro hex hab hsy
    have htier : tierCandidates tbl s = fuzzyCandidates tbl s := by
      unfold tierCandidates
      rw [if_pos hex, if_pos hab, if_pos hsy]
    intro c hc
    exact htier ▸ (mem_standardize_iff tbl s c).mp hc

theorem standardize_tier_priority_witness :
    standardize demoTables "Hypertension" ≠ [] :=
  ((standardize_tier_priority demoTables "Hypertension").1 (by decide)).1

end RCM

namespace RCM

theorem computeStatus_spec (t : Nat) (ext : RawExtraction) (pes : List ProcessedEntity)
    (issues : List ValidationIssue) :
    (computeStatus t ext pes issues = Status.failed ↔ (ext.fields = [] ∧ ext.segments = [])) ∧
    (computeStatus t ext pes issues = Status.partialResult ↔
        (¬(ext.fields = [] ∧ ext.segments = []) ∧ hasDegradation t pes issues = true)) ∧
    (computeStatus t ext pes issues = Status.complete ↔
        (¬(ext.fields = [] ∧ ext.segments = []) ∧ hasDegradation t pes issues = false)) := by
  unfold computeStatus
  by_cases h1 : ext.fields = [] ∧ ext.segments = []
  · simp [h1]
  · by_cases h2 : hasDegradation t pes issues <;> simp [h1, h2]

/-- C3: for a successfully classified document the emitted record never
pairs an empty RawExtraction with status COMPLETE; either the extractor
produced at least one field or segment or the status is FAILED, FAILED
occurs only when nothing could be extracted at all, PARTIAL only when
some entity or field is missing or below threshold, and COMPLETE only
when neither holds. -/
theorem record_status_invariant (env : Env) (doc : Document) (tag : FormatTag)
    (h : classify doc = Except.ok tag) :
    ¬((runPipeline env doc).extraction.fields = [] ∧
        (runPipeline env doc).extraction.segments = [] ∧
        (runPipeline env doc).status = Status.complete) ∧
    ((runPipeline env doc).extraction.fields ≠ [] ∨
        (runPipeline env doc).extraction.segments ≠ [] ∨
        (runPipeline env doc).status = Status.failed) ∧
    ((runPipeline env doc).status = Status.failed →
        (runPipeline env doc).extraction.fields = [] ∧
        (runPipeline env doc).extraction.segments = []) ∧
    ((runPipeline env doc).status = Status.partialResult →
        hasDegradation env.threshold (runPipeline env doc).entities
          (runPipeline env doc).issues = true) ∧
    ((runPipeline env doc).status = Status.complete →
        hasDegradation env.threshold (runPipeline env doc).entities
          (runPipeline env doc).issues = false) := by
  have hr : runPipeline env doc =
      if (env.extract tag doc).fields = [] ∧ (env.extract tag doc).segments = [] then
        failedRecord doc "ExtractionError"
      else
        { docId := doc.id, extraction := env.extract tag doc,
          entities := assembledEntities env doc tag,
          issues := assembledIssues env doc tag,
          status := computeStatus env.threshold (env.extract tag doc)
                      (assembledEntities env doc tag) (assembledIssues env doc tag),
          failureReason := none } := by
    unfold runPipeline
    rw [h]
  by_cases hemp : (env.extract tag doc).fields = [] ∧ (env.extract tag doc).segments = []
  · rw [hr, if_pos hemp]
    refine ⟨?_, ?_, ?_, ?_, ?_⟩ <;> simp [failedRecord]
  · rw [hr, if_neg hemp]
    obtain ⟨hsF, hsP, hsC⟩ := computeStatus_spec env.threshold (env.extract tag doc)
      (assembledEntities env doc tag) (assembledIssues env doc tag)
    refine ⟨?_, ?_, ?_, ?_, ?_⟩
    · rintro ⟨hf, hs, -⟩
      exact hemp ⟨hf, hs⟩
    · rcases not_and_or.mp hemp with hf | hs
      · exact Or.inl hf
      · exact Or.inr (Or.inl hs)
    · intro hst
      exact absurd (hsF.mp hst) hemp
    · intro hst
      exact (hsP.mp hst).2
    · intro hst
      exact (hsC.mp hst).2

theorem record_status_invariant_witness :
    ¬((runPipeline demoEnv hl7Doc).extraction.fields = [] ∧
        (runPipeline demoEnv hl7Doc).extraction.segments = [] ∧
        (runPipeline demoEnv hl7Doc).status = Status.complete) :=
  (record_status_invariant demoEnv hl7Doc FormatTag.hl7 rfl).1

/-- C4: when the router raises UnrecognizedFormat, the pipeline emits a
FAILED MedicalRecord carrying that reason, the result does not depend on
any downstream stage (no extraction, recognition, standardization or
validation output reaches it), and the record carries no entities and no
issues. -/
theorem unrecognized_format_short_circuit (doc : Document)
    (h : classify doc = Except.error PipelineError.unrecognizedFormat) (envA envB : Env) :
    runPipeline envA doc = failedRecord doc "UnrecognizedFormat" ∧
    runPipeline envA doc = runPipeline envB doc ∧
    (runPipeline envA doc).status = Status.failed ∧
    (runPipeline envA doc).failureReason = some "UnrecognizedFormat" ∧
    (runPipeline envA doc).extraction = { fields := [], segments := [] } ∧
    (runPipeline envA doc).entities = [] ∧
    (runPipeline envA doc).issues = [] := by
  have key : ∀ env : Env, runPipeline env doc = failedRecord doc "UnrecognizedFormat" := by
    intro env
    unfold runPipeline
    rw [h]
  refine ⟨key envA, (key envA).trans (key envB).symm, ?_, ?_, ?_, ?_, ?_⟩ <;>
    rw [key envA] <;> rfl

theorem unrecognized_format_short_circuit_witness :
    runPipeline demoEnv blankDoc = failedRecord blankDoc "UnrecognizedFormat" :=
  (unrecognized_format_short_circuit blankDoc rfl demoEnv demoEnv).1

/-- C5: for a fixed batch of candidate sets, raising the acceptance
threshold never increases the number of selected codes. -/
theorem acceptance_threshold_monotone (t1 t2 : Nat) (h : t1 ≤ t2)
    (batches : List (List StandardizedCode)) :
    selectedCount t2 batches ≤ selectedCount t1 batches := by
  unfold selectedCount
  apply List.countP_mono_left
  intro cs _ hp
  unfold selectCode at hp ⊢
  obtain ⟨c, hc, hle⟩ := List.find?_isSome.mp hp
  refine List.find?_isSome.mpr ⟨c, hc, ?_⟩
  simp only [decide_eq_true_eq] at hle ⊢
  omega

theorem acceptance_threshold_monotone_witness :
    selectedCount 85 demoBatches ≤ selectedCount 75 demoBatches :=
  acceptance_threshold_monotone 75 85 (by decide) demoBatches

/-- C6: standardization is a deterministic function of the surface text
and the terminology tables; identical inputs give identical ordered
candidate lists. -/
theorem standardize_deterministic (tblA tblB : TerminologyTables) (sA sB : String)
    (h1 : tblA = tblB) (h2 : sA = sB) :
    standardize tblA sA = standardize tblB sB := by
  rw [h1, h2]

theorem standardize_deterministic_witness :
    standardize demoTables "HTN" = standardize demoTables "HTN" :=
  standardize_deterministic demoTables demoTables "HTN" "HTN" rfl rfl

/-- C7: a validator pass only appends issues and mutates nothing else,
and a second pass over the resulting state yields the same issue set as a
single pass. -/
theorem validator_additive_idempotent (r : RecordInProgress) :
    (applyValidator r).docId = r.docId ∧
    (applyValidator r).formatTag = r.formatTag ∧
    (applyValidator r).extraction = r.extraction ∧
    (applyValidator r).entities = r.entities ∧
    (applyValidator r).issues = r.issues ++ validate r ∧
    ∀ i : ValidationIssue,
      (i ∈ (applyValidator (applyValidator r)).issues ↔ i ∈ (applyValidator r).issues) := by
  refine ⟨rfl, rfl, rfl, rfl, rfl, ?_⟩
  intro i
  have hv : validate (applyValidator r) = validate r := rfl
  show i ∈ (r.issues ++ validate r) ++ validate (applyValidator r) ↔
      i ∈ r.issues ++ validate r
  rw [hv]
  simp only [List.mem_append]
  tauto

theorem validator_additive_idempotent_witness :
    (applyValidator demoRecord).issues = demoRecord.issues ++ validate demoRecord :=
  (validator_additive_idempotent demoRecord).2.2.2.2.1

end RCM

namespace RCM

/-- C8: ProtectedRoute renders its children exactly when the stored value
under the localStorage key isAuthenticated is the string true; any other
stored value, including absence, renders a redirect to /login. -/
theorem protectedRoute_renders_iff_authenticated (store : List (String × String)) :
    (protectedRoute store = RouteOutcome.renderChildren ↔
        getItem store "isAuthenticated" = some "true") ∧
    (¬getItem store "isAuthenticated" = some "true" →
        protectedRoute store = RouteOutcome.redirectToLogin) := by
  unfold protectedRoute
  by_cases h : getItem store "isAuthenticated" = some "true" <;> simp [h]

theorem protectedRoute_renders_iff_authenticated_witness :
    protectedRoute [("isAuthenticated", "true")] = RouteOutcome.renderChildren :=
  (protectedRoute_renders_iff_authenticated [("isAuthenticated", "true")]).1.mpr (by decide)

/-- C9: a Login submission authenticates (stores isAuthenticated as true
and navigates to /dashboard) exactly when the credentials are admin/admin;
every other pair only shows an invalid-credentials alert and writes
nothing to storage. -/
theorem login_success_iff_admin (u p : String) :
    (((handleSubmit u p).storedItems = [("isAuthenticated", "true")] ∧
        (handleSubmit u p).navigatedTo = some "/dashboard") ↔
      (u = "admin" ∧ p = "admin")) ∧
    (¬(u = "admin" ∧ p = "admin") →
        (handleSubmit u p).storedItems = [] ∧
        (handleSubmit u p).navigatedTo = none ∧
        (handleSubmit u p).alertMessage = some "Invalid credentials") := by
  unfold handleSubmit
  by_cases h : u = "admin" ∧ p = "admin" <;> simp [h]

theorem login_success_iff_admin_witness :
    (handleSubmit "admin" "admin").navigatedTo = some "/dashboard" :=
  ((login_success_iff_admin "admin" "admin").1.mpr ⟨rfl, rfl⟩).2

/-- C10: handleSearch with a fixed selected code system produces the same
results whatever search term was typed; the result depends only on the
code system and the static table. -/
theorem handleSearch_ignores_search_term (st1 st2 : CodeLookupState)
    (h : st1.codeType = st2.codeType) :
    (handleSearch st1).searchResults = (handleSearch st2).searchResults := by
  unfold handleSearch
  show lookupResults st1.codeType = lookupResults st2.codeType
  rw [h]

theorem handleSearch_ignores_search_term_witness :
    (handleSearch demoLookupStateA).searchResults =
      (handleSearch demoLookupStateB).searchResults :=
  handleSearch_ignores_search_term demoLookupStateA demoLookupStateB rfl

end RCM
